import Mathlib

/-!
Shallow embedding of the StarRocks backend excerpt:
  - src/be/src/common/status.h                                    (Status)
  - src/be/src/exec/pipeline/hashjoin/hash_join_build_operator.cpp (HashJoinBuildOperator)
  - src/be/src/exec/spill/dir_manager.cpp                          (DirManager::init)
Pure functions of the source are translated to Lean functions; the stateful
operator methods are translated to explicit state passing, returning the new
state together with the list of collaborator calls (effects) the method issued.
-/

/-- Status codes from gen_cpp/StatusCode_types.h (the thrift enum is not part of
src/, so codes are modelled as an abstract enumeration; only the codes used by
the excerpted source appear). -/
inductive TStatusCode where
  | OK
  | CANCELLED
  | NOT_FOUND
  | NOT_IMPLEMENTED_ERROR
  | INVALID_ARGUMENT
  | IO_ERROR
  | INTERNAL_ERROR
  | RUNTIME_ERROR
  | MEM_LIMIT_EXCEEDED
  | END_OF_FILE
deriving DecidableEq, Repr

/-- The non-null `_state` array of a Status (status.h lines 399-407): a code,
a message, and a context. -/
structure ErrState where
  code : TStatusCode
  message : String
  context : String
deriving DecidableEq, Repr

/-- Status (status.h): `_state == nullptr` is modelled as `state = none`.
`checked` models the mutable `_checked` flag used under
STARROCKS_ASSERT_STATUS_CHECKED (status.h lines 408-412); it starts `false`
(must-check) and becomes `true` when the status is inspected. -/
structure Status where
  state : Option ErrState
  checked : Bool
deriving DecidableEq, Repr

/-- A default-constructed Status (`Status() = default`, status.h line 34):
`_state` is nullptr and `_checked` is false. -/
def Status.default : Status := ⟨none, false⟩

/-- `Status::OK()` (status.h line 133) returns `Status()`. -/
def Status.OK : Status := Status.default

/-- Construction of a failure `Status(code, msg)` (status.h line 382), with
empty context. -/
def Status.mkError (code : TStatusCode) (msg : String) : Status :=
  ⟨some ⟨code, msg, ""⟩, false⟩

/-- `Status::Cancelled(msg)` (status.h line 156). -/
def Status.Cancelled (msg : String) : Status := Status.mkError .CANCELLED msg

/-- `Status::NotFound(msg)` (status.h line 146). -/
def Status.NotFound (msg : String) : Status := Status.mkError .NOT_FOUND msg

/-- `Status::NotSupported(msg)` (status.h line 148): code NOT_IMPLEMENTED_ERROR. -/
def Status.NotSupported (msg : String) : Status :=
  Status.mkError .NOT_IMPLEMENTED_ERROR msg

/-- `Status::IOError(msg)` (status.h line 145). -/
def Status.IOError (msg : String) : Status := Status.mkError .IO_ERROR msg

/-- `Status::InvalidArgument(msg)` (status.h line 140). -/
def Status.InvalidArgument (msg : String) : Status :=
  Status.mkError .INVALID_ARGUMENT msg

/-- `mark_checked()` (status.h lines 393-397): sets `_checked = true`. -/
def Status.mark_checked (s : Status) : Status := ⟨s.state, true⟩

/-- The boolean value returned by `ok()` (status.h lines 202-205):
`_state == nullptr`. (The accompanying `mark_checked()` side effect is
modelled separately where the checked flag matters.) -/
def Status.isOk (s : Status) : Bool := s.state.isNone

/-- `code()` (status.h lines 355-358): OK when `_state` is nullptr, otherwise
the stored code byte. -/
def Status.code (s : Status) : TStatusCode :=
  match s.state with
  | none => .OK
  | some e => e.code

/-- `message()` (status.h lines 336-350): empty for OK statuses, otherwise the
message portion of `_state`. -/
def Status.message (s : Status) : String :=
  match s.state with
  | none => ""
  | some e => e.message

/-- The context portion of `_state` (status.h lines 399-406): empty for OK. -/
def Status.context (s : Status) : String :=
  match s.state with
  | none => ""
  | some e => e.context

/-- `is_cancelled()` (status.h lines 207-210): `code() == CANCELLED`. -/
def Status.is_cancelled (s : Status) : Bool := s.code = .CANCELLED

/-- `is_not_found()` (status.h lines 237-240): `code() == NOT_FOUND`. -/
def Status.is_not_found (s : Status) : Bool := s.code = .NOT_FOUND

/-- `is_not_supported()` (status.h lines 252-255): `code() == NOT_IMPLEMENTED_ERROR`. -/
def Status.is_not_supported (s : Status) : Bool := s.code = .NOT_IMPLEMENTED_ERROR

/-- Modelled from the spec: `moved_from_state()` is declared in status.h (line
391) but defined in common/status.cpp, which is not part of src/. Per the spec
(section 3): "Moving out of a Result leaves it in a sentinel moved-from state
that is itself treated as success", so the sentinel is modelled as the success
state. -/
def Status.movedFromState : Option ErrState := none

/-- The move constructor `Status(Status&&)` (status.h lines 67-71): the
destination takes the source state and calls `must_check()` on itself
(checked = false); the source is set to the moved-from sentinel and
`mark_checked()` is called on it (checked = true). Returns
(moved-to, source-after-move). -/
def Status.moveFrom (s : Status) : Status × Status :=
  (⟨s.state, false⟩, ⟨Status.movedFromState, true⟩)

/-- The destructor check under STARROCKS_ASSERT_STATUS_CHECKED (status.h lines
36-47): a defect report is emitted when the status is destroyed with
`_checked` still false. -/
def Status.triggersUncheckedReport (s : Status) : Bool := !s.checked

/-- `Status::update(const Status&)` (status.h lines 415-421): marks the new
status checked (not represented in the result, which is the updated `this`);
if `ok()` holds, `*this = new_status` (the copy assignment, status.h lines
74-82, copies the state and calls `must_check()`), otherwise `this` is left
with its state, `ok()` having marked it checked. -/
def Status.update (s n : Status) : Status :=
  if s.state.isNone then ⟨n.state, false⟩ else ⟨s.state, true⟩

/-- `ignore_not_found(status)` (status.h lines 431-433): returns `Status::OK()`
when `status.is_not_found()`, otherwise returns a copy of `status` (the copy
constructor duplicates the state and calls `must_check()`). -/
def ignore_not_found (s : Status) : Status :=
  if s.is_not_found then Status.OK else ⟨s.state, false⟩

/-- Claim C6: for every Status s and every Status n, `s.update(n)` replaces s
with n if and only if s is currently success; if s already holds a failure,
update leaves its code and message unchanged regardless of n
(first-error-wins). -/
theorem status_update_first_error_wins (s n : Status) :
    (s.update n).state = (if s.isOk then n.state else s.state) ∧
    (s.isOk = false →
      (s.update n).code = s.code ∧ (s.update n).message = s.message) := by
  constructor
  · unfold Status.update Status.isOk
    by_cases h : s.state.isNone <;> simp [h]
  · intro h
    unfold Status.isOk at h
    unfold Status.update
    cases hs : s.state with
    | none => rw [hs] at h; simp at h
    | some e =>
      simp [Status.code, Status.message, hs]

/-- Witness for C6 at a concrete failed status: update keeps the first error. -/
theorem status_update_first_error_wins_witness :
    ((Status.IOError "disk").update (Status.Cancelled "c")).code =
        (Status.IOError "disk").code ∧
    ((Status.IOError "disk").update (Status.Cancelled "c")).message =
        (Status.IOError "disk").message :=
  (status_update_first_error_wins (Status.IOError "disk")
    (Status.Cancelled "c")).2 (by decide)

/-- Claim C7: a default-constructed Status is success, and a moved-from Status
is itself success and does not trigger the unchecked-status defect report when
destroyed without being inspected. -/
theorem status_default_and_moved_from_ok (s : Status) :
    Status.default.isOk = true ∧
    ((Status.moveFrom s).2).isOk = true ∧
    ((Status.moveFrom s).2).triggersUncheckedReport = false := by
  refine ⟨rfl, rfl, rfl⟩

/-- Claim C10: `ignore_not_found(s)` returns success when s codes NotFound and
otherwise returns a Status with the same code, message, and context as s. -/
theorem ignore_not_found_spec (s : Status) :
    (s.is_not_found = true → (ignore_not_found s).isOk = true) ∧
    (s.is_not_found = false →
      (ignore_not_found s).code = s.code ∧
      (ignore_not_found s).message = s.message ∧
      (ignore_not_found s).context = s.context) := by
  constructor
  · intro h
    unfold ignore_not_found
    simp [h, Status.OK, Status.default, Status.isOk]
  · intro h
    unfold ignore_not_found
    simp only [h, Bool.false_eq_true, if_neg]
    unfold Status.code Status.message Status.context
    exact ⟨rfl, rfl, rfl⟩

/-- Witness for C10: a NotFound status is turned into success, and an IOError
status passes through with code, message and context intact. -/
theorem ignore_not_found_spec_witness :
    (ignore_not_found (Status.NotFound "gone")).isOk = true ∧
    (ignore_not_found (Status.IOError "disk")).code =
        (Status.IOError "disk").code :=
  ⟨(ignore_not_found_spec (Status.NotFound "gone")).1 (by decide),
   ((ignore_not_found_spec (Status.IOError "disk")).2 (by decide)).1⟩

/-- `clone_and_append_context(filename, line, expr)` is declared in status.h
(line 380) with its body in common/status.cpp, outside src/. Modelled from the
spec (section 4.1): it annotates where a failure was first observed "without
changing its kind" — the code and message are kept and the context is
extended; an OK status stays OK (as documented for the clone_and_* family,
status.h lines 360-378). -/
def Status.clone_and_append_context (s : Status) (ctx : String) : Status :=
  match s.state with
  | none => Status.OK
  | some e => ⟨some ⟨e.code, e.message, e.context ++ ctx⟩, false⟩

/-- The `RETURN_IF_ERROR(stmt)` macro (status.h lines 453-459, via
RETURN_IF_ERROR_INTERNAL): given the Status produced by `stmt`, yields
`some returnedStatus` when the caller returns early (status not ok, with the
call-site context appended) and `none` when execution continues. -/
def return_if_error (s : Status) (ctx : String) : Option Status :=
  if s.isOk then none else some (s.clone_and_append_context ctx)

/-- The collaborator calls HashJoinBuildOperator methods can issue, in program
order (hash_join_build_operator.cpp). `setCollector` records the plan-node id
key used for `runtime_filter_hub()->set_collector(_plan_node_id, ...)`. -/
inductive BuildEffect where
  | buildHT
  | createRuntimeFilters
  | retainStringKeyColumns
  | addPartialFilters
  | updateBloomFilterMetrics
  | publishRuntimeFilters
  | setCollector (plan_node_id : Int)
  | enterProbePhase
deriving DecidableEq, Repr

/-- The environment of one `set_finishing` call: the results the collaborators
would return, plus the operator's `_plan_node_id`. `add_filters` is the
`StatusOr<bool>` returned by `PartialRuntimeFilterMerger::add_partial_filters`
(true means this lane is the final contributor). -/
structure FinishingEnv where
  is_cancelled : Bool
  build_ht : Status
  create_runtime_filters : Status
  add_filters : Except ErrState Bool
  plan_node_id : Int
deriving Repr

/-- The per-operator state touched by `set_finishing`: the `_is_finished` flag
(set by the DeferOp), the `_set_finishing_once` flag, and the outcome recorded
by the first call (used by the modelled idempotence guard). -/
structure OpState where
  is_finished : Bool
  finishing_called : Bool
  first_outcome : Status
deriving DecidableEq, Repr

/-- The state of a freshly created operator. -/
def initialOpState : OpState := ⟨false, false, Status.OK⟩

/-- The body of HashJoinBuildOperator::set_finishing (hash_join_build_operator.cpp
lines 86-144), executed when the guard lets the call run: the cancellation
check, then `build_ht`, `create_runtime_filters`,
`retain_string_key_columns`, `add_partial_filters` under RETURN_IF_ERROR
discipline; on the final contributor the metrics update, the publication and
the Hub installation keyed by `_plan_node_id`; then `enter_probe_phase`.
Returns the Status and the ordered effect list. -/
def set_finishing_run (env : FinishingEnv) : Status × List BuildEffect :=
  if env.is_cancelled then
    (Status.Cancelled "runtime state is cancelled", [])
  else
    match return_if_error env.build_ht "_join_builder->build_ht(state)" with
    | some err => (err, [.buildHT])
    | none =>
      match return_if_error env.create_runtime_filters
          "_join_builder->create_runtime_filters(state)" with
      | some err => (err, [.buildHT, .createRuntimeFilters])
      | none =>
        match env.add_filters with
        | .error e =>
          (⟨some e, false⟩,
           [.buildHT, .createRuntimeFilters, .retainStringKeyColumns,
            .addPartialFilters])
        | .ok last =>
          if last then
            (Status.OK,
             [.buildHT, .createRuntimeFilters, .retainStringKeyColumns,
              .addPartialFilters, .updateBloomFilterMetrics,
              .publishRuntimeFilters, .setCollector env.plan_node_id,
              .enterProbePhase])
          else
            (Status.OK,
             [.buildHT, .createRuntimeFilters, .retainStringKeyColumns,
              .addPartialFilters, .enterProbePhase])

/-- HashJoinBuildOperator::set_finishing (hash_join_build_operator.cpp lines
82-145). Two pieces whose definitions live outside src/ are modelled from the
spec: `ONCE_DETECT(_set_finishing_once)` (util/race_detect.h) is modelled per
the spec (section 4.2) as a guarded state compare making a repeated call "a
no-op" that "returns the same outcome as the first"; the
`DeferOp([this]() { _is_finished = true; })` scope exit (util/defer_op.h) is
modelled by setting `is_finished` on every exit path of the executed body. -/
def set_finishing (env : FinishingEnv) (st : OpState) :
    Status × OpState × List BuildEffect :=
  if st.finishing_called then
    (st.first_outcome, st, [])
  else
    let r := set_finishing_run env
    (r.1, ⟨true, true, r.1⟩, r.2)

/-- The invariant relating the two flags: once a `set_finishing` call has run,
`_is_finished` is true. It holds for the fresh state and is preserved by
`set_finishing`. -/
def OpState.flagsInv (st : OpState) : Prop :=
  st.finishing_called = true → st.is_finished = true

/-- Claim C1: calling `set_finishing` a second time on the same operator
instance is a no-op (no build or filter work, state unchanged) and returns the
same outcome as the first call. -/
theorem set_finishing_second_call_noop (env : FinishingEnv) (st : OpState) :
    (set_finishing env (set_finishing env st).2.1).1 = (set_finishing env st).1 ∧
    (set_finishing env (set_finishing env st).2.1).2.2 = [] ∧
    (set_finishing env (set_finishing env st).2.1).2.1 = (set_finishing env st).2.1 := by
  by_cases h : st.finishing_called <;> simp [set_finishing, h]

/-- Claim C2: on every exit path of `set_finishing` the finished flag is true
afterwards (given the flags invariant that holds for every reachable state),
and when the query context reports cancelled at entry of an executing call,
the result is a cancellation error and no hash-table or filter work happens. -/
theorem set_finishing_marks_finished (env : FinishingEnv) (st : OpState)
    (h : st.flagsInv) :
    ((set_finishing env st).2.1).is_finished = true ∧
    (st.finishing_called = false → env.is_cancelled = true →
      ((set_finishing env st).1).is_cancelled = true ∧
      (set_finishing env st).2.2 = []) := by
  unfold OpState.flagsInv at h
  by_cases hc : st.finishing_called
  · refine ⟨by simp [set_finishing, hc, h hc], ?_⟩
    intro habs
    rw [hc] at habs
    cases habs
  · refine ⟨by simp [set_finishing, hc], ?_⟩
    intro _ hcanc
    unfold set_finishing set_finishing_run
    simp [hc, hcanc]
    rfl

/-- Witness for C2 at a cancelled query on a fresh operator. -/
theorem set_finishing_marks_finished_witness :
    ((set_finishing ⟨true, Status.OK, Status.OK, Except.ok true, 7⟩
        initialOpState).2.1).is_finished = true ∧
    ((set_finishing ⟨true, Status.OK, Status.OK, Except.ok true, 7⟩
        initialOpState).1).is_cancelled = true ∧
    (set_finishing ⟨true, Status.OK, Status.OK, Except.ok true, 7⟩
        initialOpState).2.2 = [] := by
  have h := set_finishing_marks_finished
    ⟨true, Status.OK, Status.OK, Except.ok true, 7⟩ initialOpState
    (by intro hh; simp [initialOpState] at hh)
  exact ⟨h.1, (h.2 rfl rfl).1, (h.2 rfl rfl).2⟩

/-- Claim C3: in a first, non-cancelled, error-free run of `set_finishing`,
when `add_partial_filters` reports this lane as the final contributor the
operator updates the bloom-filter memory metric, publishes the merged bloom
filters, and installs the collector into the Hub keyed by the operator's plan
node id; when it reports false none of those three happen; in either case the
Joiner then enters the probe phase and the call returns OK. -/
theorem set_finishing_final_contributor (env : FinishingEnv) (st : OpState)
    (h1 : st.finishing_called = false) (h2 : env.is_cancelled = false)
    (h3 : env.build_ht.isOk = true) (h4 : env.create_runtime_filters.isOk = true)
    (last : Bool) (h5 : env.add_filters = Except.ok last) :
    (set_finishing env st).1 = Status.OK ∧
    (set_finishing env st).2.2 =
      (if last then
        [.buildHT, .createRuntimeFilters, .retainStringKeyColumns,
         .addPartialFilters, .updateBloomFilterMetrics, .publishRuntimeFilters,
         .setCollector env.plan_node_id, .enterProbePhase]
       else
        [.buildHT, .createRuntimeFilters, .retainStringKeyColumns,
         .addPartialFilters, .enterProbePhase]) ∧
    ((BuildEffect.publishRuntimeFilters ∈ (set_finishing env st).2.2) ↔ last = true) ∧
    ((BuildEffect.setCollector env.plan_node_id ∈ (set_finishing env st).2.2) ↔ last = true) ∧
    ((BuildEffect.updateBloomFilterMetrics ∈ (set_finishing env st).2.2) ↔ last = true) ∧
    BuildEffect.enterProbePhase ∈ (set_finishing env st).2.2 := by
  unfold set_finishing set_finishing_run return_if_error
  simp [h1, h2, h3, h4, h5]
  cases last <;> simp

/-- Witness for C3 on a concrete final-contributor run with plan-node id 42. -/
theorem set_finishing_final_contributor_witness :
    (set_finishing ⟨false, Status.OK, Status.OK, Except.ok true, 42⟩
        initialOpState).1 = Status.OK ∧
    BuildEffect.setCollector 42 ∈
      (set_finishing ⟨false, Status.OK, Status.OK, Except.ok true, 42⟩
        initialOpState).2.2 := by
  have h := set_finishing_final_contributor
    ⟨false, Status.OK, Status.OK, Except.ok true, 42⟩ initialOpState
    rfl rfl rfl rfl true rfl
  exact ⟨h.1, (h.2.2.2.1).mpr rfl⟩

/-- The registration side effects of HashJoinBuildOperator::prepare
(hash_join_build_operator.cpp lines 40-55): how many times
`_partial_rf_merger->incr_builder()` ran and how many `_join_builder->ref()`
calls were made. -/
structure PrepareEffects where
  builder_incr : Nat
  joiner_refs : Nat
deriving DecidableEq, Repr

/-- The environment of one `prepare` call: the Status returned by
`Operator::prepare(state)` and by `_join_builder->prepare_builder(...)`. -/
structure PrepareEnv where
  operator_prepare : Status
  prepare_builder : Status
deriving DecidableEq, Repr

/-- HashJoinBuildOperator::prepare (hash_join_build_operator.cpp lines 40-55):
RETURN_IF_ERROR(Operator::prepare) first; then `incr_builder()` once and
`ref()` twice (one for the lazily instantiated prober, one for this builder);
then RETURN_IF_ERROR(prepare_builder); then OK. -/
def prepare (env : PrepareEnv) : Status × PrepareEffects :=
  match return_if_error env.operator_prepare "Operator::prepare(state)" with
  | some err => (err, ⟨0, 0⟩)
  | none =>
    match return_if_error env.prepare_builder
        "_join_builder->prepare_builder(state, _unique_metrics.get())" with
    | some err => (err, ⟨1, 2⟩)
    | none => (Status.OK, ⟨1, 2⟩)

/-- Claim C4: a successful `prepare` increments the expected-builder count
exactly once and takes exactly two Joiner references; on every outcome the
counts are consistent — either the full registration (1 increment, 2
references) or none of it, never a partial increment. -/
theorem prepare_registration_consistent (env : PrepareEnv) :
    ((prepare env).1.isOk = true →
      (prepare env).2.builder_incr = 1 ∧ (prepare env).2.joiner_refs = 2) ∧
    ((prepare env).2 = ⟨1, 2⟩ ∨ (prepare env).2 = ⟨0, 0⟩) ∧
    (prepare env).2.joiner_refs = 2 * (prepare env).2.builder_incr := by
  rcases hs1 : env.operator_prepare.state with _ | e1 <;>
  rcases hs2 : env.prepare_builder.state with _ | e2 <;>
    simp [prepare, return_if_error, Status.clone_and_append_context,
      Status.isOk, Status.OK, Status.default, hs1, hs2]

/-- Witness for C4: with both collaborator calls succeeding, prepare succeeds
with exactly one builder increment and two references. -/
theorem prepare_registration_consistent_witness :
    (prepare ⟨Status.OK, Status.OK⟩).2.builder_incr = 1 ∧
    (prepare ⟨Status.OK, Status.OK⟩).2.joiner_refs = 2 :=
  (prepare_registration_consistent ⟨Status.OK, Status.OK⟩).1 (by decide)

/-- The opaque chunk handle returned on `pull_chunk`'s success path (never
produced by the build operator). -/
inductive ChunkPtr where
  | chunk
deriving DecidableEq, Repr

/-- The part of RuntimeState that the excerpted operator code reads. -/
structure RuntimeStateModel where
  is_cancelled : Bool
deriving DecidableEq, Repr

/-- HashJoinBuildOperator::pull_chunk (hash_join_build_operator.cpp lines
62-66): returns `Status::NotSupported("pull_chunk not supported in
HashJoinBuildOperator")` in every state. The preceding `CHECK(false) << msg`
comes from common/logging.h, which is not part of src/; it is modelled per the
spec (section 4.2): a pure builder "must reject pulls with a not supported
error rather than silently returning empty data", i.e. the call returns the
error. -/
def pull_chunk (state : RuntimeStateModel) : Except ErrState ChunkPtr :=
  Except.error ⟨.NOT_IMPLEMENTED_ERROR,
    "pull_chunk not supported in HashJoinBuildOperator", ""⟩

/-- Claim C5: `pull_chunk` returns a not-supported error in every state, never
an empty or valid chunk. -/
theorem pull_chunk_not_supported (state : RuntimeStateModel) :
    pull_chunk state =
      Except.error ⟨.NOT_IMPLEMENTED_ERROR,
        "pull_chunk not supported in HashJoinBuildOperator", ""⟩ ∧
    (∀ c : ChunkPtr, pull_chunk state ≠ Except.ok c) := by
  refine ⟨rfl, ?_⟩
  intro c h
  simp [pull_chunk] at h

/-- One character class `[0-9a-f]` of the query-id pattern in DirManager::init
(dir_manager.cpp line 60): a decimal digit or a lowercase hex letter. -/
def isLowerHexDigit (c : Char) : Bool :=
  (decide ('0' ≤ c) && decide (c ≤ '9')) || (decide ('a' ≤ c) && decide (c ≤ 'f'))

/-- `[0-9a-f]{n}`: consume exactly n lowercase-hex characters, returning the
remaining input, or none when a character fails the class or input runs out. -/
def takeHex : Nat → List Char → Option (List Char)
  | 0, cs => some cs
  | _ + 1, [] => none
  | n + 1, c :: cs => if isLowerHexDigit c then takeHex n cs else none

/-- A literal `-` of the pattern: consume one hyphen. -/
def takeDash : List Char → Option (List Char)
  | [] => none
  | c :: cs => if c = '-' then some cs else none

/-- The anchored scan of the regex
`^[0-9a-f]{8}-[0-9a-f]{4}-[0-9a-f]{4}-[0-9a-f]{4}-[0-9a-f]{12}$`
(dir_manager.cpp line 60), left to right. -/
def queryIdScan (cs : List Char) : Option (List Char) := do
  let r1 ← takeHex 8 cs
  let r2 ← takeDash r1
  let r3 ← takeHex 4 r2
  let r4 ← takeDash r3
  let r5 ← takeHex 4 r4
  let r6 ← takeDash r5
  let r7 ← takeHex 4 r6
  let r8 ← takeDash r7
  takeHex 12 r8

/-- `std::regex_match(sub_dir, query_id_pattern)`: the whole string must be
consumed (the pattern is anchored on both sides). -/
def queryIdRegexMatch (s : String) : Bool :=
  match queryIdScan s.data with
  | some [] => true
  | _ => false

/-- The two possible treatments of an existing subdirectory of a spill
directory during DirManager::init. -/
inductive SubdirAction where
  | deleteRecursive
  | skip
deriving DecidableEq, Repr

/-- The `iterate_dir` callback of DirManager::init (dir_manager.cpp lines
66-78): a subdirectory matching the query-id pattern is deleted recursively
(`fs->delete_dir_recursive(dir)`), any other subdirectory is skipped (only a
log line is emitted). -/
def spillSubdirAction (sub_dir : String) : SubdirAction :=
  if queryIdRegexMatch sub_dir then .deleteRecursive else .skip

/-- A run of lowercase hexadecimal characters. -/
def lowerHexGroup (g : List Char) : Prop := ∀ c ∈ g, isLowerHexDigit c = true

/-- The 8-4-4-4-12 lowercase-hex shape of a query-id directory name, stated
structurally (independently of the scanner). -/
def isQueryIdShape (s : String) : Prop :=
  ∃ g1 g2 g3 g4 g5 : List Char,
    g1.length = 8 ∧ g2.length = 4 ∧ g3.length = 4 ∧ g4.length = 4 ∧
    g5.length = 12 ∧
    lowerHexGroup g1 ∧ lowerHexGroup g2 ∧ lowerHexGroup g3 ∧
    lowerHexGroup g4 ∧ lowerHexGroup g5 ∧
    s.data = g1 ++ '-' :: (g2 ++ '-' :: (g3 ++ '-' :: (g4 ++ '-' :: g5)))

theorem takeHex_sound (n : Nat) : ∀ (cs r : List Char), takeHex n cs = some r →
    ∃ g : List Char, g.length = n ∧ lowerHexGroup g ∧ cs = g ++ r := by
  induction n with
  | zero =>
    intro cs r h
    simp only [takeHex, Option.some.injEq] at h
    refine ⟨[], rfl, ?_, by simp [h]⟩
    intro c hc
    cases hc
  | succ n ih =>
    intro cs r h
    cases cs with
    | nil => simp [takeHex] at h
    | cons c cs =>
      simp only [takeHex] at h
      by_cases hc : isLowerHexDigit c
      · rw [if_pos hc] at h
        obtain ⟨g, hg1, hg2, hg3⟩ := ih cs r h
        refine ⟨c :: g, by simp [hg1], ?_, by simp [hg3]⟩
        intro x hx
        rcases List.mem_cons.mp hx with h1 | h2
        · rw [h1]; exact hc
        · exact hg2 x h2
      · rw [if_neg hc] at h; cases h

theorem takeHex_complete (g : List Char) : ∀ (r : List Char), lowerHexGroup g →
    takeHex g.length (g ++ r) = some r := by
  induction g with
  | nil => intro r _; rfl
  | cons c g ih =>
    intro r hall
    simp only [List.length_cons, List.cons_append, takeHex]
    rw [if_pos (hall c (by simp))]
    exact ih r (fun x hx => hall x (by simp [hx]))

theorem takeDash_sound (cs r : List Char) (h : takeDash cs = some r) :
    cs = '-' :: r := by
  cases cs with
  | nil => cases h
  | cons c cs =>
    simp only [takeDash] at h
    by_cases hc : c = '-'
    · rw [if_pos hc] at h
      simp only [Option.some.injEq] at h
      rw [hc, h]
    · rw [if_neg hc] at h; cases h

theorem takeDash_cons (r : List Char) : takeDash ('-' :: r) = some r := by
  simp [takeDash]

theorem queryIdScan_sound (cs : List Char) (h : queryIdScan cs = some []) :
    ∃ g1 g2 g3 g4 g5 : List Char,
      g1.length = 8 ∧ g2.length = 4 ∧ g3.length = 4 ∧ g4.length = 4 ∧
      g5.length = 12 ∧
      lowerHexGroup g1 ∧ lowerHexGroup g2 ∧ lowerHexGroup g3 ∧
      lowerHexGroup g4 ∧ lowerHexGroup g5 ∧
      cs = g1 ++ '-' :: (g2 ++ '-' :: (g3 ++ '-' :: (g4 ++ '-' :: g5))) := by
  unfold queryIdScan at h
  simp only [bind, Option.bind_eq_some] at h
  obtain ⟨r1, h1, r2, h2, r3, h3, r4, h4, r5, h5, r6, h6, r7, h7, r8, h8, h9⟩ := h
  obtain ⟨g1, l1, x1, e1⟩ := takeHex_sound 8 cs r1 h1
  have d1 := takeDash_sound r1 r2 h2
  obtain ⟨g2, l2, x2, e2⟩ := takeHex_sound 4 r2 r3 h3
  have d2 := takeDash_sound r3 r4 h4
  obtain ⟨g3, l3, x3, e3⟩ := takeHex_sound 4 r4 r5 h5
  have d3 := takeDash_sound r5 r6 h6
  obtain ⟨g4, l4, x4, e4⟩ := takeHex_sound 4 r6 r7 h7
  have d4 := takeDash_sound r7 r8 h8
  obtain ⟨g5, l5, x5, e5⟩ := takeHex_sound 12 r8 [] h9
  refine ⟨g1, g2, g3, g4, g5, l1, l2, l3, l4, l5, x1, x2, x3, x4, x5, ?_⟩
  rw [e1, d1, e2, d2, e3, d3, e4, d4, e5]
  simp

theorem queryIdScan_complete (g1 g2 g3 g4 g5 : List Char)
    (l1 : g1.length = 8) (l2 : g2.length = 4) (l3 : g3.length = 4)
    (l4 : g4.length = 4) (l5 : g5.length = 12)
    (x1 : lowerHexGroup g1) (x2 : lowerHexGroup g2) (x3 : lowerHexGroup g3)
    (x4 : lowerHexGroup g4) (x5 : lowerHexGroup g5) :
    queryIdScan (g1 ++ '-' :: (g2 ++ '-' :: (g3 ++ '-' :: (g4 ++ '-' :: g5))))
      = some [] := by
  have t1 := takeHex_complete g1 ('-' :: (g2 ++ '-' :: (g3 ++ '-' :: (g4 ++ '-' :: g5)))) x1
  rw [l1] at t1
  have t2 := takeHex_complete g2 ('-' :: (g3 ++ '-' :: (g4 ++ '-' :: g5))) x2
  rw [l2] at t2
  have t3 := takeHex_complete g3 ('-' :: (g4 ++ '-' :: g5)) x3
  rw [l3] at t3
  have t4 := takeHex_complete g4 ('-' :: g5) x4
  rw [l4] at t4
  have t5 := takeHex_complete g5 [] x5
  rw [l5] at t5
  rw [List.append_nil] at t5
  unfold queryIdScan
  simp only [bind]
  rw [t1, Option.some_bind, takeDash_cons, Option.some_bind,
    t2, Option.some_bind, takeDash_cons, Option.some_bind,
    t3, Option.some_bind, takeDash_cons, Option.some_bind,
    t4, Option.some_bind, takeDash_cons, Option.some_bind, t5]

theorem queryIdRegexMatch_iff (s : String) :
    queryIdRegexMatch s = true ↔ queryIdScan s.data = some [] := by
  unfold queryIdRegexMatch
  cases h : queryIdScan s.data with
  | none => simp
  | some r =>
    cases r with
    | nil => simp
    | cons c cs => simp

/-- Claim C9: during DirManager::init a pre-existing subdirectory of a spill
directory is recursively deleted if and only if its name matches the query-id
pattern of 8-4-4-4-12 lowercase hexadecimal groups separated by hyphens;
every other subdirectory is skipped. -/
theorem dir_manager_deletes_exactly_query_id_dirs (sub_dir : String) :
    (spillSubdirAction sub_dir = SubdirAction.deleteRecursive ↔
      isQueryIdShape sub_dir) ∧
    (spillSubdirAction sub_dir = SubdirAction.skip ↔
      ¬ isQueryIdShape sub_dir) := by
  have hiff : spillSubdirAction sub_dir = SubdirAction.deleteRecursive ↔
      isQueryIdShape sub_dir := by
    constructor
    · intro h
      unfold spillSubdirAction at h
      by_cases hm : queryIdRegexMatch sub_dir
      · obtain ⟨g1, g2, g3, g4, g5, l1, l2, l3, l4, l5, x1, x2, x3, x4, x5, e⟩ :=
          queryIdScan_sound sub_dir.data ((queryIdRegexMatch_iff sub_dir).mp hm)
        exact ⟨g1, g2, g3, g4, g5, l1, l2, l3, l4, l5, x1, x2, x3, x4, x5, e⟩
      · rw [if_neg hm] at h; cases h
    · intro hshape
      obtain ⟨g1, g2, g3, g4, g5, l1, l2, l3, l4, l5, x1, x2, x3, x4, x5, e⟩ := hshape
      unfold spillSubdirAction
      rw [if_pos]
      apply (queryIdRegexMatch_iff sub_dir).mpr
      rw [e]
      exact queryIdScan_complete g1 g2 g3 g4 g5 l1 l2 l3 l4 l5 x1 x2 x3 x4 x5
  refine ⟨hiff, ?_, ?_⟩
  · intro h hshape
    have h2 := hiff.mpr hshape
    rw [h] at h2
    cases h2
  · intro h
    cases hA : spillSubdirAction sub_dir with
    | deleteRecursive => exact absurd (hiff.mp hA) h
    | skip => rfl

/-- The wire form of a Status used across process boundaries (TStatus): a code
and a list of error messages (empty on success). -/
structure TStatus where
  status_code : TStatusCode
  error_msgs : List String
deriving DecidableEq, Repr

/-- Modelled from the spec: `Status::to_thrift` is declared in status.h (line
325) with its body in common/status.cpp, outside src/. Per the spec (section
6): "a success value has no payload; a failure is serialized as code,
message, context bytes ... context is advisory ... and may be dropped by
lossy transports", so the modelled wire form carries code and message and
drops context. -/
def Status.to_thrift (s : Status) : TStatus :=
  match s.state with
  | none => ⟨.OK, []⟩
  | some e => ⟨e.code, [e.message]⟩

/-- Modelled from the spec: the wire "copy" constructor `Status(const TStatus&)`
(status.h line 96) has its body in common/status.cpp, outside src/. An OK wire
code yields a success Status, otherwise the code and first message are
adopted, with no context. -/
def Status.fromThrift (t : TStatus) : Status :=
  if t.status_code = .OK then Status.OK
  else ⟨some ⟨t.status_code, t.error_msgs.headD "", ""⟩, false⟩

/-- Claim C8: converting a Status to its wire form and back yields a Status
with exactly the same code and message (for statuses whose error state carries
a non-OK code, the only ones the constructors produce); context need not be
preserved. -/
theorem status_wire_roundtrip (s : Status)
    (h : ∀ e, s.state = some e → e.code ≠ TStatusCode.OK) :
    (Status.fromThrift (Status.to_thrift s)).code = s.code ∧
    (Status.fromThrift (Status.to_thrift s)).message = s.message := by
  cases hs : s.state with
  | none =>
    simp [Status.to_thrift, Status.fromThrift, hs, Status.code, Status.message,
      Status.OK, Status.default]
  | some e =>
    have hne := h e hs
    simp [Status.to_thrift, Status.fromThrift, hs, hne, Status.code,
      Status.message]

/-- Witness for C8 on a concrete IOError status. -/
theorem status_wire_roundtrip_witness :
    (Status.fromThrift (Status.to_thrift (Status.IOError "disk"))).code =
        (Status.IOError "disk").code ∧
    (Status.fromThrift (Status.to_thrift (Status.IOError "disk"))).message =
        (Status.IOError "disk").message :=
  status_wire_roundtrip (Status.IOError "disk")
    (by
      intro e he
      injection he with h2
      rw [← h2]
      decide)

/-- Witness for C1 on a concrete environment: the second call does no work. -/
theorem set_finishing_second_call_noop_witness :
    (set_finishing ⟨false, Status.OK, Status.OK, Except.ok false, 5⟩
      (set_finishing ⟨false, Status.OK, Status.OK, Except.ok false, 5⟩
        initialOpState).2.1).2.2 = [] ∧
    (set_finishing ⟨false, Status.OK, Status.OK, Except.ok false, 5⟩
      (set_finishing ⟨false, Status.OK, Status.OK, Except.ok false, 5⟩
        initialOpState).2.1).1 =
    (set_finishing ⟨false, Status.OK, Status.OK, Except.ok false, 5⟩
        initialOpState).1 :=
  ⟨(set_finishing_second_call_noop
      ⟨false, Status.OK, Status.OK, Except.ok false, 5⟩ initialOpState).2.1,
   (set_finishing_second_call_noop
      ⟨false, Status.OK, Status.OK, Except.ok false, 5⟩ initialOpState).1⟩

/-- Witness for C5 in a concrete state: the pull is rejected as not supported. -/
theorem pull_chunk_not_supported_witness :
    pull_chunk ⟨false⟩ =
      Except.error ⟨.NOT_IMPLEMENTED_ERROR,
        "pull_chunk not supported in HashJoinBuildOperator", ""⟩ :=
  (pull_chunk_not_supported ⟨false⟩).1

/-- Witness for C7 moving out of a concrete failed status. -/
theorem status_default_and_moved_from_ok_witness :
    ((Status.moveFrom (Status.IOError "disk")).2).isOk = true ∧
    ((Status.moveFrom (Status.IOError "disk")).2).triggersUncheckedReport
      = false :=
  ⟨(status_default_and_moved_from_ok (Status.IOError "disk")).2.1,
   (status_default_and_moved_from_ok (Status.IOError "disk")).2.2⟩

/-- Witness for C9 on a concrete residual spill directory name. -/
theorem dir_manager_deletes_exactly_query_id_dirs_witness :
    isQueryIdShape "0123abcd-0123-4567-89ab-0123456789ab" :=
  ((dir_manager_deletes_exactly_query_id_dirs
      "0123abcd-0123-4567-89ab-0123456789ab").1).mp (by decide)
